import Mathlib

/-!
# netproxy: callback-driven TCP and UDP listeners

A shallow embedding of `tcproxy.go`, `udproxy.go` and `debug.go`.

Everything the Go code does to the outside world (resolving, listening, accepting, reading,
setting deadlines, calling the user callback, closing, logging) is recorded, in program order,
in a list of `Event`s.  Everything the outside world answers (whether an address resolves,
what a read returns, how the callback ends, what the clock shows) is an oracle of a `World`,
so a theorem that quantifies over the world holds for every behaviour of the network and of
the user callback.

The loops of the Go code do not end by themselves; they are run for a number of
iterations (`fuel`), and `Status.running` says that the loop is still going when the
observation stops.

A `go f(...)` statement is modelled by running the task at the place where it is spawned
(one of the admissible schedules): the spawning loop sees nothing of the task, except that
a panic that leaves the task ends the whole program, as it does in Go.
-/

namespace Netproxy

/-! ## Values -/

/-- A Go `error`: its text and what `net.Error.Timeout()` would answer for it. -/
structure GoError where
  msg : String
  timeout : Bool
deriving DecidableEq, Repr

/-- The function `errors.New` of the Go library. -/
def errorsNew (text : String) : GoError := ⟨text, false⟩

/-- A resolved network address (`*net.TCPAddr`, `*net.UDPAddr`, `net.Addr`). -/
abbrev NetAddr := String

/-- An instant of the wall clock, in nanoseconds. -/
abbrev Time := Int

/-- A `time.Duration`: an int64 count of nanoseconds. -/
abbrev Duration := Int

/-- Two's complement wrap-around of an integer to the int64 range. -/
def wrapInt64 (x : Int) : Int :=
  (x + 9223372036854775808) % 18446744073709551616 - 9223372036854775808

/-- The constant `time.Minute`. -/
def Minute : Duration := 60 * 1000000000

/-- The expression `time.Minute * time.Duration(m)` for an `int` m: the conversion to the
int64 type `Duration`, then an int64 product, which wraps around on overflow. -/
def minutes (m : Int) : Duration := wrapInt64 (Minute * wrapInt64 m)

/-- The method `Time.Add` (exact on the range of instants a clock can show). -/
def timeAdd (t : Time) (d : Duration) : Time := t + d

/-- A byte slice: the identity of its backing array and its contents. -/
structure Buf where
  id : Nat
  bytes : List Nat
deriving DecidableEq, Repr

/-- The expression `make([]byte, size)`: a zeroed slice on a new backing array, which the
allocator names `id`. -/
def make (id size : Nat) : Buf := ⟨id, List.replicate size 0⟩

/-- What a read of the payload `p` into the slice returns: the byte count. -/
def Buf.count (data : Buf) (p : List Nat) : Nat := min p.length data.bytes.length

/-- What a read of the payload `p` leaves in the slice: the bytes read, then the old tail. -/
def Buf.fill (data : Buf) (p : List Nat) : Buf :=
  { data with bytes := p.take (data.count p) ++ data.bytes.drop (data.count p) }

/-- How one invocation of a user callback ends: it returns an `error` (nil or not) or it
panics with a value. -/
inductive HandlerResult where
  | ret (err : Option GoError)
  | panic (v : String)
deriving DecidableEq, Repr

/-- The state of a Go function or task at the end of an observation: still in its loop,
returned with an `error` result, or left by a panic nobody recovered. -/
inductive Status where
  | running
  | done (err : Option GoError)
  | crashed (v : String)
deriving DecidableEq, Repr

/-- The type `TCPHandlerCallback`.  The first argument counts the invocations made so far
in the session: it stands for the state user code may keep between two invocations. -/
abbrev TCPHandlerCallback := Nat → Option Nat → NetAddr → Buf → Int → HandlerResult

/-- The type `UDPHandlerCallback`; a dispatch task invokes it once, and the slice it gets
carries the identity of its backing array. -/
abbrev UDPHandlerCallback := Nat → NetAddr → Buf → Int → HandlerResult

/-! ## Events -/

/-- One interaction of the library with the outside world. -/
inductive Event where
  | ResolveTCPAddr (network address : String)
  | ListenTCP (network : String) (laddr : NetAddr)
  | ListenerClose (l : Nat)
  | AcceptTCP (l : Nat)
  | goTCP (conn : Nat) (addr : NetAddr) (buf : Nat)
  | Now
  | SetReadDeadline (conn : Option Nat) (t : Time)
  | SetWriteDeadline (conn : Option Nat) (t : Time)
  | Read (conn : Option Nat) (buf : Nat)
  | handleTCP (conn : Option Nat) (addr : NetAddr) (data : Buf) (length : Int)
  | ConnClose (conn : Nat)
  | ResolveUDPAddr (network address : String)
  | ListenUDP (network : String) (laddr : NetAddr)
  | UDPConnClose (conn : Nat)
  | ReadFromUDP (conn : Nat) (buf : Nat)
  | goUDP (conn : Nat) (addr : NetAddr) (buf : Nat) (length : Int)
  | handleUDP (conn : Nat) (addr : NetAddr) (data : Buf) (length : Int)
  | makeBuf (buf : Nat) (size : Nat)
  | recover (v : Option String)
  | UserTrace (format : String) (level : Nat) (v : List String)
  | logPrintf (format : String) (v : List String)
deriving DecidableEq, Repr

/-! ## debug.go -/

def LevelEmergency : Nat := 0
def LevelAlert : Nat := 1
def LevelCritical : Nat := 2
def LevelError : Nat := 3
def LevelWarning : Nat := 4
def LevelNotice : Nat := 5
def LevelInformational : Nat := 6
def LevelDebug : Nat := 7

/-- The two package variables of debug.go: `debugEnable`, and whether `UserTrace` is set;
they are taken as fixed during a run. -/
structure Debug where
  debugEnable : Bool
  userTraceSet : Bool
deriving DecidableEq, Repr

/-- The function `TraceInfo`. -/
def TraceInfo (dbg : Debug) (format : String) (v : List String) : List Event :=
  if dbg.debugEnable then
    if dbg.userTraceSet then [Event.UserTrace format LevelInformational v]
    else [Event.logPrintf format v]
  else []

/-- The function `TraceError`. -/
def TraceError (dbg : Debug) (format : String) (v : List String) : List Event :=
  if dbg.debugEnable then
    if dbg.userTraceSet then [Event.UserTrace format LevelError v]
    else [Event.logPrintf format v]
  else []

/-! ## The outside world -/

/-- What one accepted connection sees: the clock (`now k` is what the k-th call of
`time.Now` in the session returns) and the reads (`read i d` is what the i-th `conn.Read`
returns when it is issued with the read deadline `d`: the bytes that arrive, or an error). -/
structure SessionWorld where
  now : Nat → Time
  read : Nat → Time → Except GoError (List Nat)

/-- The oracles of a run. `acceptTCP i` and `readFromUDP i` answer the i-th call of the
loop; `session i` is what the connection accepted by the i-th call sees. -/
structure World where
  debug : Debug
  resolveTCPAddr : String → String → Except GoError NetAddr
  listenTCP : String → NetAddr → Except GoError Nat
  acceptTCP : Nat → Except GoError (Nat × NetAddr)
  session : Nat → SessionWorld
  resolveUDPAddr : String → String → Except GoError NetAddr
  listenUDP : String → NetAddr → Except GoError Nat
  readFromUDP : Nat → Except GoError (List Nat × NetAddr)

/-! ## tcproxy.go -/

/-- The struct `TCProxy`. -/
structure TCProxy where
  Name : String
  Addr : String
  Listener : Option Nat
  Conn : Option Nat
  ReadDeadline : Int
  WriteDeadline : Int
  Handler : Option TCPHandlerCallback

/-- The read deadline computed in iteration `i` of a session:
`time.Now().Add(time.Minute * time.Duration(readDeadline))`. -/
def tRead (sw : SessionWorld) (readDeadline : Int) (i : Nat) : Time :=
  timeAdd (sw.now (2 * i)) (minutes readDeadline)

/-- The write deadline computed in iteration `i` of a session. -/
def tWrite (sw : SessionWorld) (writeDeadline : Int) (i : Nat) : Time :=
  timeAdd (sw.now (2 * i + 1)) (minutes writeDeadline)

/-- The value a Go program panics with when it calls a method through a nil pointer. -/
def nilDereference : String :=
  "runtime error: invalid memory address or nil pointer dereference"

/-- The `for` loop of `handleTCPPacketThread`, from iteration `i` on, for at most `fuel`
iterations. The result is how the body of the function ends: a `return`, a panic, or still
looping. On a nil connection the first iteration reads the clock twice and then panics in
`conn.SetReadDeadline`, before any deadline is applied and before any read. The results of
the two deadline calls are dropped, as in the source. -/
def sessionLoop (dbg : Debug) (sw : SessionWorld) (conn : Option Nat) (addr : NetAddr)
    (handle : Option TCPHandlerCallback) (readDeadline writeDeadline : Int) :
    Nat → Nat → Buf → List Event × Status
  | 0, _, _ => ([], Status.running)
  | fuel + 1, i, data =>
    match conn with
    | none => ([Event.Now, Event.Now], Status.crashed nilDereference)
    | some _ =>
      let deadlines : List Event :=
        [Event.Now, Event.Now,
         Event.SetReadDeadline conn (tRead sw readDeadline i),
         Event.SetWriteDeadline conn (tWrite sw writeDeadline i),
         Event.Read conn data.id]
      match sw.read i (tRead sw readDeadline i) with
      | Except.error err =>
        (deadlines ++ TraceError dbg "[tcproxy] tcp read data failed, %v" [err.msg],
          Status.done (some err))
      | Except.ok p =>
        let length : Int := data.count p
        let data1 := data.fill p
        match handle with
        | none =>
          let rest := sessionLoop dbg sw conn addr handle readDeadline writeDeadline
            fuel (i + 1) data1
          (deadlines ++ rest.1, rest.2)
        | some h =>
          match h i conn addr data1 length with
          | HandlerResult.panic v =>
            (deadlines ++ [Event.handleTCP conn addr data1 length], Status.crashed v)
          | HandlerResult.ret (some err) =>
            (deadlines ++ [Event.handleTCP conn addr data1 length], Status.done (some err))
          | HandlerResult.ret none =>
            let rest := sessionLoop dbg sw conn addr handle readDeadline writeDeadline
              fuel (i + 1) data1
            (deadlines ++ Event.handleTCP conn addr data1 length :: rest.1, rest.2)

/-- The deferred function of `handleTCPPacketThread`, run when the body ends in `body`:
it closes a non-nil connection, then calls `recover`, which stops a panic; the function
then returns the zero value of its result, a nil error. -/
def sessionDeferred (dbg : Debug) (conn : Option Nat) (addr : NetAddr) (body : Status) :
    List Event × Status :=
  let closing : List Event :=
    match conn with
    | some c => TraceInfo dbg "[tcproxy] tcp client close: <- %s" [addr] ++ [Event.ConnClose c]
    | none => []
  match body with
  | Status.crashed v =>
    (closing ++ Event.recover (some v) :: TraceError dbg "[tcproxy] handle packet panic, %v" [v],
      Status.done none)
  | other => (closing ++ [Event.recover none], other)

/-- The function `handleTCPPacketThread`, observed for `fuel` iterations of its loop. The
deferred function runs once the body has ended. -/
def handleTCPPacketThread (dbg : Debug) (sw : SessionWorld) (fuel : Nat) (conn : Option Nat)
    (addr : NetAddr) (data : Buf) (handle : Option TCPHandlerCallback)
    (readDeadline writeDeadline : Int) : List Event × Status :=
  let body := sessionLoop dbg sw conn addr handle readDeadline writeDeadline fuel 0 data
  let started := TraceInfo dbg "[tcproxy] new tcp connected: -> %s" [addr] ++ body.1
  match body.2 with
  | Status.running => (started, Status.running)
  | ended =>
    let deferred := sessionDeferred dbg conn addr ended
    (started ++ deferred.1, deferred.2)

/-- The function `handleTCPPacket`: the accept loop, from iteration `i` on, for at most
`fuel` iterations; `heap` is the name the allocator gives to the next backing array, and
each session is observed for `sfuel` iterations. The loop has no exit: it is `running`
unless a spawned task lets a panic escape. -/
def handleTCPPacket (w : World) (sfuel : Nat) (listener : Nat)
    (handle : Option TCPHandlerCallback) (readDeadline writeDeadline : Int) :
    Nat → Nat → Nat → List Event × Status
  | 0, _, _ => ([], Status.running)
  | fuel + 1, i, heap =>
    match w.acceptTCP i with
    | Except.error err =>
      let rest := handleTCPPacket w sfuel listener handle readDeadline writeDeadline
        fuel (i + 1) heap
      (Event.AcceptTCP listener :: TraceError w.debug "[tcproxy] tcp accept failed, %v" [err.msg]
        ++ rest.1, rest.2)
    | Except.ok (conn, remote) =>
      let buf := make heap 4096
      let task := handleTCPPacketThread w.debug (w.session i) sfuel (some conn) remote buf
        handle readDeadline writeDeadline
      let spawned : List Event :=
        [Event.AcceptTCP listener, Event.makeBuf heap 4096, Event.goTCP conn remote buf.id]
          ++ task.1
      match task.2 with
      | Status.crashed v => (spawned, Status.crashed v)
      | _ =>
        let rest := handleTCPPacket w sfuel listener handle readDeadline writeDeadline
          fuel (i + 1) (heap + 1)
        (spawned ++ rest.1, rest.2)

/-- The method `TCProxy.Start` on the receiver `u` (nil is `none`). The result is the
events, the receiver after the call, and how the call ends. -/
def TCProxy.Start (w : World) (sfuel fuel : Nat) (u : Option TCProxy) :
    List Event × Option TCProxy × Status :=
  match u with
  | none => ([], none, Status.done (some (errorsNew "u is nil")))
  | some p =>
    if p.Addr = "" then
      ([], some p, Status.done (some (errorsNew "addr is empty")))
    else
      match w.resolveTCPAddr "tcp4" p.Addr with
      | Except.error err =>
        ([Event.ResolveTCPAddr "tcp4" p.Addr], some p, Status.done (some err))
      | Except.ok tcpAddr =>
        match w.listenTCP "tcp4" tcpAddr with
        | Except.error err =>
          ([Event.ResolveTCPAddr "tcp4" p.Addr, Event.ListenTCP "tcp4" tcpAddr]
            ++ TraceError w.debug "[tcproxy] listen tcp port failed, %v" [err.msg],
            some p, Status.done (some err))
        | Except.ok listener =>
          let bound := { p with Listener := some listener }
          match bound.Handler with
          | some h =>
            let served := handleTCPPacket w sfuel listener (some h) bound.ReadDeadline
              bound.WriteDeadline fuel 0 0
            ([Event.ResolveTCPAddr "tcp4" p.Addr, Event.ListenTCP "tcp4" tcpAddr] ++ served.1,
              some bound, served.2)
          | none =>
            ([Event.ResolveTCPAddr "tcp4" p.Addr, Event.ListenTCP "tcp4" tcpAddr]
              ++ TraceError w.debug "[tcproxy] define user-specified callback function first" []
              ++ [Event.ListenerClose listener],
              some bound,
              Status.done (some (errorsNew "define user-specified callback function first")))

/-! ## udproxy.go -/

/-- The struct `UDProxy`. -/
structure UDProxy where
  Name : String
  Addr : String
  Conn : Option Nat
  Handler : Option UDPHandlerCallback

/-- The body of `handleUDPPacketThread`. -/
def dispatchBody (conn : Nat) (addr : NetAddr) (data : Buf) (length : Int)
    (handle : Option UDPHandlerCallback) : List Event × Status :=
  match handle with
  | some h =>
    match h conn addr data length with
    | HandlerResult.panic v => ([Event.handleUDP conn addr data length], Status.crashed v)
    | HandlerResult.ret err => ([Event.handleUDP conn addr data length], Status.done err)
  | none => ([], Status.done none)

/-- The deferred function of `handleUDPPacketThread`: it calls `recover`, and logs the
panic it stopped, if any. -/
def dispatchDeferred (dbg : Debug) (body : Status) : List Event × Status :=
  match body with
  | Status.crashed v =>
    (Event.recover (some v) :: TraceError dbg "[udproxy] handle packet panic, %v" [v],
      Status.done none)
  | other => ([Event.recover none], other)

/-- The function `handleUDPPacketThread`. -/
def handleUDPPacketThread (dbg : Debug) (conn : Nat) (addr : NetAddr) (data : Buf)
    (length : Int) (handle : Option UDPHandlerCallback) : List Event × Status :=
  let body := dispatchBody conn addr data length handle
  let deferred := dispatchDeferred dbg body.2
  (body.1 ++ deferred.1, deferred.2)

/-- The function `handleUDPPacket`: the receive loop, from iteration `i` on, for at most
`fuel` iterations; `heap` is the name of the next backing array. -/
def handleUDPPacket (w : World) (conn : Nat) (handle : Option UDPHandlerCallback) :
    Nat → Nat → Nat → List Event × Status
  | 0, _, _ => ([], Status.running)
  | fuel + 1, i, heap =>
    let buf := make heap 4096
    match w.readFromUDP i with
    | Except.error err =>
      let rest := handleUDPPacket w conn handle fuel (i + 1) (heap + 1)
      ([Event.makeBuf heap 4096, Event.ReadFromUDP conn buf.id]
        ++ TraceError w.debug "[udproxy] udp receive failed, %v" [err.msg] ++ rest.1, rest.2)
    | Except.ok (p, addr) =>
      let num : Int := buf.count p
      let data := buf.fill p
      let task := handleUDPPacketThread w.debug conn addr data num handle
      let spawned : List Event :=
        [Event.makeBuf heap 4096, Event.ReadFromUDP conn buf.id,
         Event.goUDP conn addr data.id num] ++ task.1
      match task.2 with
      | Status.crashed v => (spawned, Status.crashed v)
      | _ =>
        let rest := handleUDPPacket w conn handle fuel (i + 1) (heap + 1)
        (spawned ++ rest.1, rest.2)

/-- The method `UDProxy.Start` on the receiver `u` (nil is `none`). -/
def UDProxy.Start (w : World) (fuel : Nat) (u : Option UDProxy) :
    List Event × Option UDProxy × Status :=
  match u with
  | none => ([], none, Status.done (some (errorsNew "u is nil")))
  | some p =>
    if p.Addr = "" then
      ([], some p, Status.done (some (errorsNew "addr is empty")))
    else
      match w.resolveUDPAddr "udp4" p.Addr with
      | Except.error err =>
        ([Event.ResolveUDPAddr "udp4" p.Addr], some p, Status.done (some err))
      | Except.ok udpAddr =>
        match w.listenUDP "udp4" udpAddr with
        | Except.error err =>
          ([Event.ResolveUDPAddr "udp4" p.Addr, Event.ListenUDP "udp4" udpAddr]
            ++ TraceError w.debug "[udproxy] listen udp port failed, %v" [err.msg],
            some p, Status.done (some err))
        | Except.ok conn =>
          let bound := { p with Conn := some conn }
          match bound.Handler with
          | some h =>
            let served := handleUDPPacket w conn (some h) fuel 0 0
            ([Event.ResolveUDPAddr "udp4" p.Addr, Event.ListenUDP "udp4" udpAddr] ++ served.1,
              some bound, served.2)
          | none =>
            ([Event.ResolveUDPAddr "udp4" p.Addr, Event.ListenUDP "udp4" udpAddr]
              ++ TraceError w.debug "[udproxy] define user-specified callback function first" []
              ++ [Event.UDPConnClose conn],
              some bound,
              Status.done (some (errorsNew "define user-specified callback function first")))

/-! ## Sample worlds and proxies -/

/-- A connection on which "ping" arrives, then nothing until the peer closes (EOF); a read
issued with a deadline that has already passed at the first clock reading of its iteration
fails with a timeout. -/
def pingSession : SessionWorld :=
  { now := fun k => 1000 + k,
    read := fun i d =>
      if d ≤ 1000 + 2 * i then Except.error ⟨"i/o timeout", true⟩
      else if i = 0 then Except.ok [112, 105, 110, 103]
      else Except.error (errorsNew "EOF") }

/-- A world in which every address resolves and binds, every second accept fails, and a
datagram "hello" arrives after a failed receive. Tracing is on, through the default logger. -/
def calmWorld : World :=
  { debug := ⟨true, false⟩,
    resolveTCPAddr := fun _ a => Except.ok a,
    listenTCP := fun _ _ => Except.ok 3,
    acceptTCP := fun i =>
      if i % 2 = 0 then Except.error (errorsNew "accept: too many open files")
      else Except.ok (10 + i, "10.0.0.1:5000"),
    session := fun _ => pingSession,
    resolveUDPAddr := fun _ a => Except.ok a,
    listenUDP := fun _ _ => Except.ok 4,
    readFromUDP := fun i =>
      if i = 0 then Except.error (errorsNew "read: connection refused")
      else Except.ok ([104, 101, 108, 108, 111], "10.0.0.2:6000") }

/-- A world in which the address ":80" is in use, and the address "nowhere" does not
resolve. -/
def busyWorld : World :=
  { calmWorld with
    resolveTCPAddr := fun _ a =>
      if a = "nowhere" then Except.error (errorsNew "missing port in address") else Except.ok a,
    listenTCP := fun _ _ => Except.error (errorsNew "bind: address already in use"),
    resolveUDPAddr := fun _ a =>
      if a = "nowhere" then Except.error (errorsNew "missing port in address") else Except.ok a,
    listenUDP := fun _ _ => Except.error (errorsNew "bind: address already in use") }

/-- A callback that returns nil. -/
def okTCP : TCPHandlerCallback := fun _ _ _ _ _ => HandlerResult.ret none

/-- A callback that returns nil. -/
def okUDP : UDPHandlerCallback := fun _ _ _ _ => HandlerResult.ret none

/-- A stream proxy with the given address and callback, and no listener yet. -/
def sampleTCP (addr : String) (handler : Option TCPHandlerCallback) : TCProxy :=
  { Name := "tcp", Addr := addr, Listener := none, Conn := none,
    ReadDeadline := 1, WriteDeadline := 1, Handler := handler }

/-- A datagram proxy with the given address and callback, and no socket yet. -/
def sampleUDP (addr : String) (handler : Option UDPHandlerCallback) : UDProxy :=
  { Name := "udp", Addr := addr, Conn := none, Handler := handler }

/-- The error `Start` returns when no callback is configured. -/
def handlerMissing : GoError := errorsNew "define user-specified callback function first"

/-! ## Observations on a list of events -/

/-- What a session does with its connection and its callback: a read into the backing array
`buf`, or an invocation of the callback on the slice of backing array `buf`. -/
inductive SessionOp where
  | read (conn : Option Nat) (buf : Nat)
  | handle (conn : Option Nat) (addr : NetAddr) (buf : Nat) (length : Int)
deriving DecidableEq, Repr

/-- The read or the callback invocation an event stands for, if any. -/
def sessionOp : Event → Option SessionOp
  | Event.Read conn buf => some (SessionOp.read conn buf)
  | Event.handleTCP conn addr data length => some (SessionOp.handle conn addr data.id length)
  | _ => none

/-- The reads and callback invocations of a list of events, in order. -/
def sessionOps (tr : List Event) : List SessionOp := tr.filterMap sessionOp

/-- The events of the body of a session loop: clock readings, deadlines, reads, callback
invocations and trace messages. -/
def Event.inLoop : Event → Bool
  | Event.Now => true
  | Event.SetReadDeadline _ _ => true
  | Event.SetWriteDeadline _ _ => true
  | Event.Read _ _ => true
  | Event.handleTCP _ _ _ _ => true
  | Event.UserTrace _ _ _ => true
  | Event.logPrintf _ _ => true
  | _ => false

/-- The contents of the session's slice after the reads of the `s` iterations that start
at iteration `i` with the slice `d`. -/
def bufAfter (sw : SessionWorld) (readDeadline : Int) : Nat → Nat → Buf → Buf
  | 0, _, d => d
  | s + 1, i, d =>
    match sw.read i (tRead sw readDeadline i) with
    | Except.ok p => bufAfter sw readDeadline s (i + 1) (d.fill p)
    | Except.error _ => d

/-- Iteration `i + k` of a session whose loop is at iteration `i` with the slice `d` ends
the loop if it is reached: its read fails, or the callback does not return nil on what
was read (it returns an error or it panics). -/
def endsAt (sw : SessionWorld) (conn : Option Nat) (addr : NetAddr)
    (handle : Option TCPHandlerCallback) (readDeadline : Int) (i : Nat) (d : Buf) (k : Nat) :
    Bool :=
  match sw.read (i + k) (tRead sw readDeadline (i + k)) with
  | Except.error _ => true
  | Except.ok p =>
    match handle with
    | none => false
    | some h =>
      h (i + k) conn addr ((bufAfter sw readDeadline k i d).fill p)
        ((bufAfter sw readDeadline k i d).count p) != HandlerResult.ret none

/-- One successful turn of a session on the slice `data`: a read, then the callback on the
same backing array with the byte count of the read. -/
def turn (conn : Option Nat) (addr : NetAddr) (data : Buf) (p : List Nat) : List SessionOp :=
  [SessionOp.read conn data.id, SessionOp.handle conn addr data.id (data.count p)]

/-- A callback that panics at its second invocation. -/
def panicTCP : TCPHandlerCallback :=
  fun i _ _ _ _ => if i = 1 then HandlerResult.panic "index out of range" else HandlerResult.ret none

/-- A callback that fails at its first invocation. -/
def failTCP : TCPHandlerCallback :=
  fun _ _ _ _ _ => HandlerResult.ret (some (errorsNew "bad frame"))

/-- A connection on which four bytes arrive at every read. -/
def flowSession : SessionWorld :=
  { now := fun k => 1000 + k, read := fun _ _ => Except.ok [112, 105, 110, 103] }

/-- The read deadlines applied to the connection, in order. -/
def readDeadlines (tr : List Event) : List Time :=
  tr.filterMap (fun e => match e with
    | Event.SetReadDeadline _ t => some t
    | _ => none)

/-- The write deadlines applied to the connection, in order. -/
def writeDeadlines (tr : List Event) : List Time :=
  tr.filterMap (fun e => match e with
    | Event.SetWriteDeadline _ t => some t
    | _ => none)

/-- The number of reads issued on the connection. -/
def reads (tr : List Event) : Nat :=
  tr.countP (fun e => match e with
    | Event.Read _ _ => true
    | _ => false)

/-- The world honours read deadlines: a read issued with a deadline that is not later than
the first clock reading of its iteration fails with a timeout error. -/
def DeadlineRespected (sw : SessionWorld) : Prop :=
  ∀ (i : Nat) (d : Time), d ≤ sw.now (2 * i) →
    ∃ e, sw.read i d = Except.error e ∧ e.timeout = true

/-- The largest count of minutes whose nanoseconds fit a `time.Duration`. -/
def maxMinutes : Int := 153722867

/-- The invocations of the datagram callback: socket, source address, slice and length. -/
def handledUDP (tr : List Event) : List (Nat × NetAddr × Buf × Int) :=
  tr.filterMap (fun e => match e with
    | Event.handleUDP conn addr data length => some (conn, addr, data, length)
    | _ => none)

/-- The number of receive calls. -/
def receives (tr : List Event) : Nat :=
  tr.countP (fun e => match e with
    | Event.ReadFromUDP _ _ => true
    | _ => false)

/-- The trace messages emitted. -/
def logged (tr : List Event) : List Event :=
  tr.filter (fun e => match e with
    | Event.UserTrace _ _ _ => true
    | Event.logPrintf _ _ => true
    | _ => false)

/-- What the callback is invoked with for the datagram the receive call `j` returns into
the slice made for that call on the backing array `b`, when the call succeeds: the socket,
the source address, that slice after the receive, and the byte count of the receive. -/
def dispatched (w : World) (conn b j : Nat) : Option (Nat × NetAddr × Buf × Int) :=
  match w.readFromUDP j with
  | Except.ok (p, addr) =>
    some (conn, addr, (make b 4096).fill p, (((make b 4096).count p : Nat) : Int))
  | Except.error _ => none

/-- A datagram callback that fails. -/
def failUDP : UDPHandlerCallback :=
  fun _ _ _ _ => HandlerResult.ret (some (errorsNew "bad datagram"))

/-- A datagram callback that panics. -/
def panicUDP : UDPHandlerCallback :=
  fun _ _ _ _ => HandlerResult.panic "nil map"

/-! ## Start: validation and binding -/

/-- C1: for every TCProxy and every UDProxy whose Addr is the empty string, whatever the
callback and the timeouts, Start returns the error "addr is empty", with no event at all
(no resolution, no listen, no callback invocation) and the proxy as it was. -/
theorem start_empty_addr (w : World) (sfuel fuel : Nat) (t : TCProxy) (d : UDProxy)
    (ht : t.Addr = "") (hd : d.Addr = "") :
    TCProxy.Start w sfuel fuel (some t)
        = ([], some t, Status.done (some (errorsNew "addr is empty")))
      ∧ UDProxy.Start w fuel (some d)
        = ([], some d, Status.done (some (errorsNew "addr is empty"))) := by
  simp [TCProxy.Start, UDProxy.Start, ht, hd]

theorem start_empty_addr_witness :
    ((sampleTCP "" (some okTCP)).Addr = "" ∧ (sampleUDP "" none).Addr = "")
      ∧ TCProxy.Start calmWorld 5 5 (some (sampleTCP "" (some okTCP)))
        = ([], some (sampleTCP "" (some okTCP)), Status.done (some (errorsNew "addr is empty")))
      ∧ UDProxy.Start calmWorld 5 (some (sampleUDP "" none))
        = ([], some (sampleUDP "" none), Status.done (some (errorsNew "addr is empty"))) :=
  ⟨⟨rfl, rfl⟩, start_empty_addr calmWorld 5 5 (sampleTCP "" (some okTCP)) (sampleUDP "" none)
    rfl rfl⟩

/-- C2, as stated, fails: with no callback, an empty Addr gives "addr is empty", and an
address that is in use gives the error of the listen call, not the callback-missing error. -/
theorem start_nil_handler_counterexample :
    (sampleTCP "" none).Handler.isNone = true
      ∧ (TCProxy.Start calmWorld 1 1 (some (sampleTCP "" none))).2.2
        = Status.done (some (errorsNew "addr is empty"))
      ∧ (TCProxy.Start calmWorld 1 1 (some (sampleTCP "" none))).2.2
        ≠ Status.done (some handlerMissing)
      ∧ (sampleUDP ":80" none).Handler.isNone = true
      ∧ (UDProxy.Start busyWorld 1 (some (sampleUDP ":80" none))).2.2
        = Status.done (some (errorsNew "bind: address already in use"))
      ∧ (UDProxy.Start busyWorld 1 (some (sampleUDP ":80" none))).2.2
        ≠ Status.done (some handlerMissing) := by
  refine ⟨rfl, ?_, ?_, rfl, ?_, ?_⟩ <;> decide

/-- C2, amended: for every configuration whose callback is unset and whose Addr is
non-empty, resolves and binds, Start returns the callback-missing error; this holds for a
TCProxy and for a UDProxy, each on its own. -/
theorem start_nil_handler_bound (w : World) (sfuel fuel : Nat) (t : TCProxy) (d : UDProxy) :
    (∀ (ta : NetAddr) (l : Nat), t.Addr ≠ "" →
        w.resolveTCPAddr "tcp4" t.Addr = Except.ok ta → w.listenTCP "tcp4" ta = Except.ok l →
        t.Handler = none →
        (TCProxy.Start w sfuel fuel (some t)).2.2 = Status.done (some handlerMissing))
      ∧ (∀ (ua : NetAddr) (c : Nat), d.Addr ≠ "" →
        w.resolveUDPAddr "udp4" d.Addr = Except.ok ua → w.listenUDP "udp4" ua = Except.ok c →
        d.Handler = none →
        (UDProxy.Start w fuel (some d)).2.2 = Status.done (some handlerMissing)) := by
  refine ⟨?_, ?_⟩
  · intro ta l ht htr htl hth
    simp [TCProxy.Start, ht, htr, htl, hth, handlerMissing]
  · intro ua c hd hdr hdl hdh
    simp [UDProxy.Start, hd, hdr, hdl, hdh, handlerMissing]

theorem start_nil_handler_bound_witness :
    (TCProxy.Start calmWorld 2 2 (some (sampleTCP ":80" none))).2.2
        = Status.done (some handlerMissing)
      ∧ (UDProxy.Start calmWorld 2 (some (sampleUDP ":53" none))).2.2
        = Status.done (some handlerMissing) :=
  ⟨(start_nil_handler_bound calmWorld 2 2 (sampleTCP ":80" none) (sampleUDP ":53" none)).1
      ":80" 3 (by decide) rfl rfl rfl,
   (start_nil_handler_bound calmWorld 2 2 (sampleTCP ":80" none) (sampleUDP ":53" none)).2
      ":53" 4 (by decide) rfl rfl rfl⟩

/-- C3, as stated, fails: with a bindable address and no callback, Start does perform the
listen call and does store the listener (the socket) in the proxy before it returns the
callback-missing error. -/
theorem start_nil_handler_binds_counterexample :
    (sampleTCP ":80" none).Listener = none
      ∧ Event.ListenTCP "tcp4" ":80" ∈ (TCProxy.Start calmWorld 1 1 (some (sampleTCP ":80" none))).1
      ∧ (TCProxy.Start calmWorld 1 1 (some (sampleTCP ":80" none))).2.1.bind TCProxy.Listener
        = some 3
      ∧ (sampleUDP ":53" none).Conn = none
      ∧ Event.ListenUDP "udp4" ":53" ∈ (UDProxy.Start calmWorld 1 (some (sampleUDP ":53" none))).1
      ∧ (UDProxy.Start calmWorld 1 (some (sampleUDP ":53" none))).2.1.bind UDProxy.Conn
        = some 4 := by
  refine ⟨rfl, ?_, ?_, rfl, ?_, ?_⟩ <;> decide

/-- C3, amended: for every configuration with a non-empty, resolvable and bindable Addr and
an unset callback, Start resolves the address, binds it, stores the listener (TCP) or the
socket (UDP) in the proxy, reports the missing callback through TraceError, closes what it
bound (the deferred Close) and returns the callback-missing error; it accepts or receives
nothing and invokes no callback. This holds for a TCProxy and for a UDProxy, each on its
own. -/
theorem start_nil_handler_releases (w : World) (sfuel fuel : Nat) (t : TCProxy) (d : UDProxy) :
    (∀ (ta : NetAddr) (l : Nat), t.Addr ≠ "" →
        w.resolveTCPAddr "tcp4" t.Addr = Except.ok ta → w.listenTCP "tcp4" ta = Except.ok l →
        t.Handler = none →
        TCProxy.Start w sfuel fuel (some t)
          = ([Event.ResolveTCPAddr "tcp4" t.Addr, Event.ListenTCP "tcp4" ta]
              ++ TraceError w.debug "[tcproxy] define user-specified callback function first" []
              ++ [Event.ListenerClose l],
             some { t with Listener := some l }, Status.done (some handlerMissing)))
      ∧ (∀ (ua : NetAddr) (c : Nat), d.Addr ≠ "" →
        w.resolveUDPAddr "udp4" d.Addr = Except.ok ua → w.listenUDP "udp4" ua = Except.ok c →
        d.Handler = none →
        UDProxy.Start w fuel (some d)
          = ([Event.ResolveUDPAddr "udp4" d.Addr, Event.ListenUDP "udp4" ua]
              ++ TraceError w.debug "[udproxy] define user-specified callback function first" []
              ++ [Event.UDPConnClose c],
             some { d with Conn := some c }, Status.done (some handlerMissing))) := by
  refine ⟨?_, ?_⟩
  · intro ta l ht htr htl hth
    simp [TCProxy.Start, ht, htr, htl, hth, handlerMissing]
  · intro ua c hd hdr hdl hdh
    simp [UDProxy.Start, hd, hdr, hdl, hdh, handlerMissing]

theorem start_nil_handler_releases_witness :
    TCProxy.Start calmWorld 2 2 (some (sampleTCP ":80" none))
        = ([Event.ResolveTCPAddr "tcp4" ":80", Event.ListenTCP "tcp4" ":80"]
            ++ TraceError calmWorld.debug
                "[tcproxy] define user-specified callback function first" []
            ++ [Event.ListenerClose 3],
           some { sampleTCP ":80" none with Listener := some 3 },
           Status.done (some handlerMissing))
      ∧ UDProxy.Start calmWorld 2 (some (sampleUDP ":53" none))
        = ([Event.ResolveUDPAddr "udp4" ":53", Event.ListenUDP "udp4" ":53"]
            ++ TraceError calmWorld.debug
                "[udproxy] define user-specified callback function first" []
            ++ [Event.UDPConnClose 4],
           some { sampleUDP ":53" none with Conn := some 4 },
           Status.done (some handlerMissing)) :=
  ⟨(start_nil_handler_releases calmWorld 2 2 (sampleTCP ":80" none) (sampleUDP ":53" none)).1
      ":80" 3 (by decide) rfl rfl rfl,
   (start_nil_handler_releases calmWorld 2 2 (sampleTCP ":80" none) (sampleUDP ":53" none)).2
      ":53" 4 (by decide) rfl rfl rfl⟩

/-- C4: for every configuration with a non-empty Addr, whether or not a callback is set: if
the address does not resolve, Start returns exactly the error of the resolution, after that
one call; if it resolves and the listen call fails, Start returns exactly the error of the
listen call, after these two calls and the trace message. In both cases nothing is accepted
or received, no callback is invoked and the proxy is as it was (Listener, Conn unassigned). -/
theorem start_bind_error (w : World) (sfuel fuel : Nat) (t : TCProxy) (d : UDProxy)
    (ht : t.Addr ≠ "") (hd : d.Addr ≠ "") :
    (∀ e, w.resolveTCPAddr "tcp4" t.Addr = Except.error e →
        TCProxy.Start w sfuel fuel (some t)
          = ([Event.ResolveTCPAddr "tcp4" t.Addr], some t, Status.done (some e)))
      ∧ (∀ a e, w.resolveTCPAddr "tcp4" t.Addr = Except.ok a →
          w.listenTCP "tcp4" a = Except.error e →
        TCProxy.Start w sfuel fuel (some t)
          = ([Event.ResolveTCPAddr "tcp4" t.Addr, Event.ListenTCP "tcp4" a]
              ++ TraceError w.debug "[tcproxy] listen tcp port failed, %v" [e.msg],
             some t, Status.done (some e)))
      ∧ (∀ e, w.resolveUDPAddr "udp4" d.Addr = Except.error e →
        UDProxy.Start w fuel (some d)
          = ([Event.ResolveUDPAddr "udp4" d.Addr], some d, Status.done (some e)))
      ∧ (∀ a e, w.resolveUDPAddr "udp4" d.Addr = Except.ok a →
          w.listenUDP "udp4" a = Except.error e →
        UDProxy.Start w fuel (some d)
          = ([Event.ResolveUDPAddr "udp4" d.Addr, Event.ListenUDP "udp4" a]
              ++ TraceError w.debug "[udproxy] listen udp port failed, %v" [e.msg],
             some d, Status.done (some e))) := by
  refine ⟨?_, ?_, ?_, ?_⟩
  · intro e h
    simp [TCProxy.Start, ht, h]
  · intro a e h1 h2
    simp [TCProxy.Start, ht, h1, h2]
  · intro e h
    simp [UDProxy.Start, hd, h]
  · intro a e h1 h2
    simp [UDProxy.Start, hd, h1, h2]

theorem start_bind_error_witness :
    TCProxy.Start busyWorld 2 2 (some (sampleTCP "nowhere" (some okTCP)))
        = ([Event.ResolveTCPAddr "tcp4" "nowhere"], some (sampleTCP "nowhere" (some okTCP)),
           Status.done (some (errorsNew "missing port in address")))
      ∧ TCProxy.Start busyWorld 2 2 (some (sampleTCP ":80" none))
        = ([Event.ResolveTCPAddr "tcp4" ":80", Event.ListenTCP "tcp4" ":80"]
            ++ TraceError busyWorld.debug "[tcproxy] listen tcp port failed, %v"
                [(errorsNew "bind: address already in use").msg],
           some (sampleTCP ":80" none),
           Status.done (some (errorsNew "bind: address already in use")))
      ∧ UDProxy.Start busyWorld 2 (some (sampleUDP "nowhere" none))
        = ([Event.ResolveUDPAddr "udp4" "nowhere"], some (sampleUDP "nowhere" none),
           Status.done (some (errorsNew "missing port in address")))
      ∧ UDProxy.Start busyWorld 2 (some (sampleUDP ":80" (some okUDP)))
        = ([Event.ResolveUDPAddr "udp4" ":80", Event.ListenUDP "udp4" ":80"]
            ++ TraceError busyWorld.debug "[udproxy] listen udp port failed, %v"
                [(errorsNew "bind: address already in use").msg],
           some (sampleUDP ":80" (some okUDP)),
           Status.done (some (errorsNew "bind: address already in use"))) :=
  ⟨(start_bind_error busyWorld 2 2 (sampleTCP "nowhere" (some okTCP))
      (sampleUDP "nowhere" none) (by decide) (by decide)).1 _ rfl,
   (start_bind_error busyWorld 2 2 (sampleTCP ":80" none)
      (sampleUDP ":80" (some okUDP)) (by decide) (by decide)).2.1 _ _ rfl rfl,
   (start_bind_error busyWorld 2 2 (sampleTCP "nowhere" (some okTCP))
      (sampleUDP "nowhere" none) (by decide) (by decide)).2.2.1 _ rfl,
   (start_bind_error busyWorld 2 2 (sampleTCP ":80" none)
      (sampleUDP ":80" (some okUDP)) (by decide) (by decide)).2.2.2 _ _ rfl rfl⟩

/-! ## The stream session -/

theorem Buf.fill_id (d : Buf) (p : List Nat) : (d.fill p).id = d.id := rfl

theorem Buf.fill_length (d : Buf) (p : List Nat) :
    (d.fill p).bytes.length = d.bytes.length := by
  simp only [Buf.fill, Buf.count, List.length_append, List.length_take, List.length_drop]
  omega

theorem Buf.fill_count (d : Buf) (p q : List Nat) : (d.fill p).count q = d.count q := by
  simp only [Buf.count, Buf.fill_length]

theorem bufAfter_id (sw : SessionWorld) (rd : Int) :
    ∀ (s i : Nat) (d : Buf), (bufAfter sw rd s i d).id = d.id := by
  intro s
  induction s with
  | zero => intro i d; rfl
  | succ s ih =>
    intro i d
    simp only [bufAfter]
    split
    · rw [ih, Buf.fill_id]
    · rfl

theorem sessionOps_TraceInfo (dbg : Debug) (f : String) (v : List String) :
    sessionOps (TraceInfo dbg f v) = [] := by
  unfold TraceInfo sessionOps
  split_ifs <;> rfl

theorem sessionOps_TraceError (dbg : Debug) (f : String) (v : List String) :
    sessionOps (TraceError dbg f v) = [] := by
  unfold TraceError sessionOps
  split_ifs <;> rfl

theorem sessionOps_append (a b : List Event) :
    sessionOps (a ++ b) = sessionOps a ++ sessionOps b := by
  simp [sessionOps]

theorem sessionOps_cons (e : Event) (l : List Event) :
    sessionOps (e :: l) = (sessionOp e).toList ++ sessionOps l := by
  unfold sessionOps
  rw [List.filterMap_cons]
  cases sessionOp e <;> rfl

theorem sessionOps_nil : sessionOps [] = [] := rfl

theorem inLoop_TraceInfo (dbg : Debug) (f : String) (v : List String) :
    ∀ e ∈ TraceInfo dbg f v, e.inLoop = true := by
  unfold TraceInfo
  split_ifs <;> simp [Event.inLoop]

theorem inLoop_TraceError (dbg : Debug) (f : String) (v : List String) :
    ∀ e ∈ TraceError dbg f v, e.inLoop = true := by
  unfold TraceError
  split_ifs <;> simp [Event.inLoop]

/-- Every event of the loop of a session is a loop event: the loop closes nothing. -/
theorem inLoop_sessionLoop (dbg : Debug) (sw : SessionWorld) (conn : Option Nat)
    (addr : NetAddr) (handle : Option TCPHandlerCallback) (rd wd : Int) :
    ∀ (fuel i : Nat) (d : Buf),
      ∀ e ∈ (sessionLoop dbg sw conn addr handle rd wd fuel i d).1, e.inLoop = true := by
  cases conn with
  | none =>
    intro fuel i d e he
    cases fuel with
    | zero => simp [sessionLoop] at he
    | succ fuel =>
      simp only [sessionLoop, List.mem_cons, List.not_mem_nil, or_false, or_self] at he
      subst he
      rfl
  | some c =>
    intro fuel
    induction fuel with
    | zero => intro i d e he; simp [sessionLoop] at he
    | succ fuel ih =>
      intro i d e he
      have hlog := inLoop_TraceError dbg "[tcproxy] tcp read data failed, %v"
      simp only [sessionLoop] at he
      split at he
      · simp only [List.mem_append, List.mem_cons] at he
        rcases he with (h | h | h | h | h | h) | h
        all_goals first
          | (subst h; rfl)
          | exact hlog _ e h
          | simp at h
      · split at he
        · simp only [List.mem_append, List.mem_cons] at he
          rcases he with (h | h | h | h | h | h) | h
          all_goals first
            | (subst h; rfl)
            | exact ih _ _ e h
            | simp at h
        · split at he
          · simp only [List.mem_append, List.mem_cons] at he
            rcases he with (h | h | h | h | h | h) | h | h
            all_goals first
              | (subst h; rfl)
              | simp at h
          · simp only [List.mem_append, List.mem_cons] at he
            rcases he with (h | h | h | h | h | h) | h | h
            all_goals first
              | (subst h; rfl)
              | simp at h
          · simp only [List.mem_append, List.mem_cons] at he
            rcases he with (h | h | h | h | h | h) | h | h
            all_goals first
              | (subst h; rfl)
              | exact ih _ _ e h
              | simp at h

theorem count_close_of_inLoop (c : Nat) (l : List Event) (h : ∀ e ∈ l, e.inLoop = true) :
    l.count (Event.ConnClose c) = 0 := by
  rw [List.count_eq_zero]
  intro hmem
  have := h _ hmem
  simp [Event.inLoop] at this

theorem sessionOps_deferred (dbg : Debug) (conn : Option Nat) (addr : NetAddr)
    (body : Status) : sessionOps (sessionDeferred dbg conn addr body).1 = [] := by
  unfold sessionDeferred
  cases conn <;> cases body <;>
    simp [sessionOps_append, sessionOps_cons, sessionOps_nil, sessionOp, sessionOps_TraceInfo,
      sessionOps_TraceError]

theorem sessionLoop_ends (dbg : Debug) (sw : SessionWorld) (c : Nat)
    (addr : NetAddr) (handle : Option TCPHandlerCallback) (rd wd : Int) :
    ∀ (k fuel i : Nat) (d : Buf), k < fuel → endsAt sw (some c) addr handle rd i d k = true →
      (sessionLoop dbg sw (some c) addr handle rd wd fuel i d).2 ≠ Status.running := by
  intro k
  induction k with
  | zero =>
    intro fuel i d hk hends
    obtain ⟨n, rfl⟩ : ∃ n, fuel = n + 1 := ⟨fuel - 1, by omega⟩
    simp only [endsAt, Nat.add_zero, bufAfter] at hends
    cases hp : sw.read i (tRead sw rd i) with
    | error e => simp [sessionLoop, hp]
    | ok p =>
      rw [hp] at hends
      cases handle with
      | none => simp at hends
      | some h =>
        simp only [bne_iff_ne, ne_eq] at hends
        cases hres : h i (some c) addr (d.fill p) (d.count p) with
        | panic v => simp [sessionLoop, hp, hres]
        | ret err =>
          cases err with
          | none => exact absurd hres hends
          | some e => simp [sessionLoop, hp, hres]
  | succ k ih =>
    intro fuel i d hk hends
    obtain ⟨n, rfl⟩ : ∃ n, fuel = n + 1 := ⟨fuel - 1, by omega⟩
    cases hp : sw.read i (tRead sw rd i) with
    | error e => simp [sessionLoop, hp]
    | ok p =>
      have hnext : endsAt sw (some c) addr handle rd (i + 1) (d.fill p) k = true := by
        simp only [endsAt, bufAfter, hp] at hends ⊢
        rw [show i + 1 + k = i + (k + 1) by omega]
        exact hends
      have hrest := ih n (i + 1) (d.fill p) (by omega) hnext
      cases handle with
      | none => simpa [sessionLoop, hp] using hrest
      | some h =>
        cases hres : h i (some c) addr (d.fill p) (d.count p) with
        | panic v => simp [sessionLoop, hp, hres]
        | ret err =>
          cases err with
          | none => simpa [sessionLoop, hp, hres] using hrest
          | some e => simp [sessionLoop, hp, hres]

/-- C5: for every stream session on an accepted connection `c`: each way its loop can end
(a read error, EOF included, an error of the callback, a panic of the callback) does end
the session task, as soon as the session is observed beyond that iteration; and once the
session task has finished, whatever ended its loop, it has returned (no panic leaves it),
its connection was closed exactly once, after every read and every callback invocation,
and a panic of the callback was recovered, the session returning nil. -/
theorem session_closes_once (dbg : Debug) (sw : SessionWorld) (fuel c : Nat) (addr : NetAddr)
    (data : Buf) (handle : Option TCPHandlerCallback) (rd wd : Int) :
    (∀ k, k < fuel → endsAt sw (some c) addr handle rd 0 data k = true →
        (handleTCPPacketThread dbg sw fuel (some c) addr data handle rd wd).2
          ≠ Status.running)
    ∧ ((handleTCPPacketThread dbg sw fuel (some c) addr data handle rd wd).2
        ≠ Status.running →
      (∃ err, (handleTCPPacketThread dbg sw fuel (some c) addr data handle rd wd).2
        = Status.done err)
      ∧ (handleTCPPacketThread dbg sw fuel (some c) addr data handle rd wd).1.count
          (Event.ConnClose c) = 1
      ∧ (∃ pre post, (handleTCPPacketThread dbg sw fuel (some c) addr data handle rd wd).1
          = pre ++ Event.ConnClose c :: post ∧ sessionOps post = [])
      ∧ (∀ v, (sessionLoop dbg sw (some c) addr handle rd wd fuel 0 data).2 = Status.crashed v →
          (handleTCPPacketThread dbg sw fuel (some c) addr data handle rd wd).2
            = Status.done none
          ∧ Event.recover (some v)
            ∈ (handleTCPPacketThread dbg sw fuel (some c) addr data handle rd wd).1)) := by
  have hbody := count_close_of_inLoop c _
    (inLoop_sessionLoop dbg sw (some c) addr handle rd wd fuel 0 data)
  have hinfo := fun f v => count_close_of_inLoop c _ (inLoop_TraceInfo dbg f v)
  have herr := fun f v => count_close_of_inLoop c _ (inLoop_TraceError dbg f v)
  refine ⟨?_, ?_⟩
  · intro k hk hends
    have hloop := sessionLoop_ends dbg sw c addr handle rd wd k fuel 0 data hk hends
    unfold handleTCPPacketThread
    generalize sessionLoop dbg sw (some c) addr handle rd wd fuel 0 data = body at hloop ⊢
    obtain ⟨ev, st⟩ := body
    cases st with
    | running => exact absurd rfl hloop
    | done err => simp [sessionDeferred]
    | crashed v => simp [sessionDeferred]
  intro hend
  unfold handleTCPPacketThread at hend ⊢
  generalize sessionLoop dbg sw (some c) addr handle rd wd fuel 0 data = body at hend hbody ⊢
  obtain ⟨ev, st⟩ := body
  cases st with
  | running => exact absurd rfl hend
  | done err =>
    refine ⟨⟨err, rfl⟩, ?_, ?_, ?_⟩
    · simp only [sessionDeferred, List.count_append, List.count_cons, List.count_nil, hinfo]
      simp at hbody
      simp [hbody]
    · refine ⟨TraceInfo dbg "[tcproxy] new tcp connected: -> %s" [addr] ++ ev
        ++ TraceInfo dbg "[tcproxy] tcp client close: <- %s" [addr], [Event.recover none], ?_, rfl⟩
      simp [sessionDeferred]
    · intro v hv
      simp at hv
  | crashed v =>
    refine ⟨⟨none, rfl⟩, ?_, ?_, ?_⟩
    · simp only [sessionDeferred, List.count_append, List.count_cons, List.count_nil, hinfo,
        herr]
      simp at hbody
      simp [hbody]
    · refine ⟨TraceInfo dbg "[tcproxy] new tcp connected: -> %s" [addr] ++ ev
        ++ TraceInfo dbg "[tcproxy] tcp client close: <- %s" [addr],
        Event.recover (some v) :: TraceError dbg "[tcproxy] handle packet panic, %v" [v], ?_, ?_⟩
      · simp [sessionDeferred]
      · simp [sessionOps_cons, sessionOp, sessionOps_TraceError]
    · intro v1 hv
      simp only [Status.crashed.injEq] at hv
      subst hv
      exact ⟨rfl, by simp [sessionDeferred]⟩

theorem session_closes_once_witness :
    (endsAt pingSession (some 7) "10.0.0.1:5000" (some okTCP) 1 0 (make 0 8) 1 = true
      ∧ (handleTCPPacketThread ⟨true, false⟩ pingSession 9 (some 7) "10.0.0.1:5000" (make 0 8)
        (some okTCP) 1 1).2 = Status.done (some (errorsNew "EOF"))
      ∧ (handleTCPPacketThread ⟨true, false⟩ pingSession 9 (some 7) "10.0.0.1:5000" (make 0 8)
        (some okTCP) 1 1).1.count (Event.ConnClose 7) = 1)
      ∧ (endsAt pingSession (some 7) "10.0.0.1:5000" (some failTCP) 1 0 (make 0 8) 0 = true
      ∧ (handleTCPPacketThread ⟨true, false⟩ pingSession 9 (some 7) "10.0.0.1:5000" (make 0 8)
        (some failTCP) 1 1).2 = Status.done (some (errorsNew "bad frame"))
      ∧ (handleTCPPacketThread ⟨true, false⟩ pingSession 9 (some 7) "10.0.0.1:5000" (make 0 8)
        (some failTCP) 1 1).1.count (Event.ConnClose 7) = 1)
      ∧ (endsAt flowSession (some 7) "10.0.0.1:5000" (some panicTCP) 1 0 (make 0 8) 1 = true
      ∧ (sessionLoop ⟨true, false⟩ flowSession (some 7) "10.0.0.1:5000" (some panicTCP) 1 1
        9 0 (make 0 8)).2 = Status.crashed "index out of range"
      ∧ (handleTCPPacketThread ⟨true, false⟩ flowSession 9 (some 7) "10.0.0.1:5000" (make 0 8)
        (some panicTCP) 1 1).2 = Status.done none
      ∧ (handleTCPPacketThread ⟨true, false⟩ flowSession 9 (some 7) "10.0.0.1:5000" (make 0 8)
        (some panicTCP) 1 1).1.count (Event.ConnClose 7) = 1) :=
  ⟨⟨by decide, by decide,
    ((session_closes_once ⟨true, false⟩ pingSession 9 7 "10.0.0.1:5000" (make 0 8)
      (some okTCP) 1 1).2
      ((session_closes_once ⟨true, false⟩ pingSession 9 7 "10.0.0.1:5000" (make 0 8)
        (some okTCP) 1 1).1 1 (by decide) (by decide))).2.1⟩,
   ⟨by decide, by decide,
    ((session_closes_once ⟨true, false⟩ pingSession 9 7 "10.0.0.1:5000" (make 0 8)
      (some failTCP) 1 1).2
      ((session_closes_once ⟨true, false⟩ pingSession 9 7 "10.0.0.1:5000" (make 0 8)
        (some failTCP) 1 1).1 0 (by decide) (by decide))).2.1⟩,
   ⟨by decide, by decide,
    (((session_closes_once ⟨true, false⟩ flowSession 9 7 "10.0.0.1:5000" (make 0 8)
      (some panicTCP) 1 1).2
      ((session_closes_once ⟨true, false⟩ flowSession 9 7 "10.0.0.1:5000" (make 0 8)
        (some panicTCP) 1 1).1 1 (by decide) (by decide))).2.2.2 "index out of range"
        (by decide)).1,
    ((session_closes_once ⟨true, false⟩ flowSession 9 7 "10.0.0.1:5000" (make 0 8)
      (some panicTCP) 1 1).2
      ((session_closes_once ⟨true, false⟩ flowSession 9 7 "10.0.0.1:5000" (make 0 8)
        (some panicTCP) 1 1).1 1 (by decide) (by decide))).2.1⟩⟩

theorem sessionLoop_turns (dbg : Debug) (sw : SessionWorld) (c : Nat)
    (addr : NetAddr) (h : TCPHandlerCallback) (rd wd : Int) (pay : Nat → List Nat) :
    ∀ (k n i : Nat) (d : Buf),
      (∀ j < k, sw.read (i + j) (tRead sw rd (i + j)) = Except.ok (pay (i + j))) →
      (∀ j < k, h (i + j) (some c) addr ((bufAfter sw rd j i d).fill (pay (i + j)))
          (d.count (pay (i + j))) = HandlerResult.ret none) →
      sessionOps (sessionLoop dbg sw (some c) addr (some h) rd wd (k + n) i d).1
          = (List.range' i k).flatMap (fun j => turn (some c) addr d (pay j))
            ++ sessionOps
              (sessionLoop dbg sw (some c) addr (some h) rd wd n (i + k) (bufAfter sw rd k i d)).1
        ∧ (sessionLoop dbg sw (some c) addr (some h) rd wd (k + n) i d).2
          = (sessionLoop dbg sw (some c) addr (some h) rd wd n (i + k) (bufAfter sw rd k i d)).2 := by
  intro k
  induction k with
  | zero => intro n i d _ _; simp [bufAfter]
  | succ k ih =>
    intro n i d hread hhandle
    have hr0 : sw.read i (tRead sw rd i) = Except.ok (pay i) := by
      simpa using hread 0 (Nat.succ_pos k)
    have hh0 : h i (some c) addr (d.fill (pay i)) (d.count (pay i)) = HandlerResult.ret none := by
      simpa [bufAfter] using hhandle 0 (Nat.succ_pos k)
    have hstep := ih n (i + 1) (d.fill (pay i))
      (fun j hj => by
        have := hread (j + 1) (by omega)
        rwa [show i + (j + 1) = i + 1 + j by omega] at this)
      (fun j hj => by
        have := hhandle (j + 1) (by omega)
        simp only [bufAfter, hr0] at this
        rw [show i + (j + 1) = i + 1 + j by omega] at this
        rwa [Buf.fill_count])
    have hfuel : k + 1 + n = (k + n) + 1 := by omega
    have hidx : i + (k + 1) = i + 1 + k := by omega
    rw [hfuel, hidx]
    simp only [sessionLoop, hr0, hh0, bufAfter]
    refine ⟨?_, hstep.2⟩
    simp only [sessionOps_append, sessionOps_cons, sessionOps_nil, hstep.1]
    simp [sessionOp, List.range'_succ, turn, Buf.fill_id, Buf.fill_count]

theorem thread_ops (dbg : Debug) (sw : SessionWorld) (fuel : Nat) (conn : Option Nat)
    (addr : NetAddr) (data : Buf) (handle : Option TCPHandlerCallback) (rd wd : Int) :
    sessionOps (handleTCPPacketThread dbg sw fuel conn addr data handle rd wd).1
      = sessionOps (sessionLoop dbg sw conn addr handle rd wd fuel 0 data).1 := by
  unfold handleTCPPacketThread
  generalize sessionLoop dbg sw conn addr handle rd wd fuel 0 data = body
  obtain ⟨ev, st⟩ := body
  cases st <;> simp [sessionOps_append, sessionOps_TraceInfo, sessionOps_deferred]

theorem thread_status (dbg : Debug) (sw : SessionWorld) (fuel : Nat) (conn : Option Nat)
    (addr : NetAddr) (data : Buf) (handle : Option TCPHandlerCallback) (rd wd : Int) :
    (handleTCPPacketThread dbg sw fuel conn addr data handle rd wd).2
      = match (sessionLoop dbg sw conn addr handle rd wd fuel 0 data).2 with
        | Status.crashed _ => Status.done none
        | other => other := by
  unfold handleTCPPacketThread
  generalize sessionLoop dbg sw conn addr handle rd wd fuel 0 data = body
  obtain ⟨ev, st⟩ := body
  cases st <;> simp [sessionDeferred]

/-- C6: for every sequence of read outcomes on a stream session with a callback, in which
the first `k` reads succeed (with payloads `pay j`) and the callback returns nil on them:
as long as the session is observed for at most `k` iterations it is running and has done
exactly read, handle, read, handle, ..., the callback getting the session's own backing
array and the byte count of the read just before; if read `k` fails, the session has done
these `k` turns and that one read, no callback invocation for it and nothing afterwards,
and returns exactly the read error; if read `k` succeeds and the callback returns an error
on it, the session has done `k + 1` turns, nothing afterwards, and returns exactly that
error. -/
theorem session_alternates (dbg : Debug) (sw : SessionWorld) (c : Nat) (addr : NetAddr)
    (data : Buf) (h : TCPHandlerCallback) (rd wd : Int) (k : Nat) (pay : Nat → List Nat)
    (hread : ∀ j < k, sw.read j (tRead sw rd j) = Except.ok (pay j))
    (hhandle : ∀ j < k, h j (some c) addr ((bufAfter sw rd j 0 data).fill (pay j))
      (data.count (pay j)) = HandlerResult.ret none) :
    (∀ fuel, fuel ≤ k →
        sessionOps (handleTCPPacketThread dbg sw fuel (some c) addr data (some h) rd wd).1
          = (List.range fuel).flatMap (fun j => turn (some c) addr data (pay j))
        ∧ (handleTCPPacketThread dbg sw fuel (some c) addr data (some h) rd wd).2
          = Status.running)
      ∧ (∀ fuel e, k < fuel → sw.read k (tRead sw rd k) = Except.error e →
        sessionOps (handleTCPPacketThread dbg sw fuel (some c) addr data (some h) rd wd).1
          = (List.range k).flatMap (fun j => turn (some c) addr data (pay j))
            ++ [SessionOp.read (some c) data.id]
        ∧ (handleTCPPacketThread dbg sw fuel (some c) addr data (some h) rd wd).2
          = Status.done (some e))
      ∧ (∀ fuel p e, k < fuel → sw.read k (tRead sw rd k) = Except.ok p →
        h k (some c) addr ((bufAfter sw rd k 0 data).fill p) (data.count p)
          = HandlerResult.ret (some e) →
        sessionOps (handleTCPPacketThread dbg sw fuel (some c) addr data (some h) rd wd).1
          = (List.range k).flatMap (fun j => turn (some c) addr data (pay j))
            ++ turn (some c) addr data p
        ∧ (handleTCPPacketThread dbg sw fuel (some c) addr data (some h) rd wd).2
          = Status.done (some e)) := by
  have hcount : ∀ (s : Nat) (q : List Nat), (bufAfter sw rd s 0 data).count q = data.count q := by
    intro s q
    have hlen : ∀ (s i : Nat) (d : Buf), (bufAfter sw rd s i d).bytes.length = d.bytes.length := by
      intro s
      induction s with
      | zero => intro i d; rfl
      | succ s ih =>
        intro i d
        simp only [bufAfter]
        split
        · rw [ih, Buf.fill_length]
        · rfl
    simp only [Buf.count, hlen]
  refine ⟨?_, ?_, ?_⟩
  · intro fuel hfuel
    have hp := sessionLoop_turns dbg sw c addr h rd wd pay fuel 0 0 data
      (fun j hj => by simpa using hread j (by omega))
      (fun j hj => by simpa using hhandle j (by omega))
    rw [thread_ops, thread_status]
    simp only [Nat.add_zero] at hp
    rw [hp.1, hp.2]
    simp [sessionLoop, sessionOps_nil, List.range_eq_range']
  · intro fuel e hfuel hk
    obtain ⟨n, rfl⟩ : ∃ n, fuel = k + (n + 1) := ⟨fuel - k - 1, by omega⟩
    have hp := sessionLoop_turns dbg sw c addr h rd wd pay k (n + 1) 0 data
      (fun j hj => by simpa using hread j hj)
      (fun j hj => by simpa using hhandle j hj)
    rw [thread_ops, thread_status, hp.1, hp.2]
    simp [sessionLoop, hk, sessionOps_append, sessionOps_cons, sessionOps_nil, sessionOp,
      sessionOps_TraceError, List.range_eq_range', bufAfter_id]
  · intro fuel p e hfuel hk hh
    obtain ⟨n, rfl⟩ : ∃ n, fuel = k + (n + 1) := ⟨fuel - k - 1, by omega⟩
    have hp := sessionLoop_turns dbg sw c addr h rd wd pay k (n + 1) 0 data
      (fun j hj => by simpa using hread j hj)
      (fun j hj => by simpa using hhandle j hj)
    rw [thread_ops, thread_status, hp.1, hp.2]
    simp [sessionLoop, hk, hh, sessionOps_append, sessionOps_cons, sessionOps_nil, sessionOp,
      List.range_eq_range', bufAfter_id, turn, Buf.fill_id, hcount]

theorem session_alternates_witness :
    (sessionOps (handleTCPPacketThread ⟨true, false⟩ pingSession 5 (some 7) "10.0.0.1:5000"
        (make 0 8) (some okTCP) 1 1).1
        = [SessionOp.read (some 7) 0, SessionOp.handle (some 7) "10.0.0.1:5000" 0 4,
           SessionOp.read (some 7) 0]
      ∧ (handleTCPPacketThread ⟨true, false⟩ pingSession 5 (some 7) "10.0.0.1:5000"
        (make 0 8) (some okTCP) 1 1).2 = Status.done (some (errorsNew "EOF")))
      ∧ (sessionOps (handleTCPPacketThread ⟨true, false⟩ pingSession 5 (some 7) "10.0.0.1:5000"
        (make 0 8) (some failTCP) 1 1).1
        = [SessionOp.read (some 7) 0, SessionOp.handle (some 7) "10.0.0.1:5000" 0 4]
      ∧ (handleTCPPacketThread ⟨true, false⟩ pingSession 5 (some 7) "10.0.0.1:5000"
        (make 0 8) (some failTCP) 1 1).2 = Status.done (some (errorsNew "bad frame"))) :=
  ⟨(session_alternates ⟨true, false⟩ pingSession 7 "10.0.0.1:5000" (make 0 8) okTCP 1 1 1
      (fun _ => [112, 105, 110, 103])
      (fun j hj => by obtain rfl : j = 0 := by omega
                      rfl)
      (fun _ _ => rfl)).2.1 5 (errorsNew "EOF") (by decide) rfl,
   (session_alternates ⟨true, false⟩ pingSession 7 "10.0.0.1:5000" (make 0 8) failTCP 1 1 0
      (fun _ => [])
      (fun j hj => absurd hj (Nat.not_lt_zero j))
      (fun j hj => absurd hj (Nat.not_lt_zero j))).2.2 5 [112, 105, 110, 103]
      (errorsNew "bad frame") (by decide) rfl rfl⟩

/-! ## Deadlines -/

theorem minutes_eq (m : Int) (h0 : 0 ≤ m) (h1 : m ≤ maxMinutes) :
    minutes m = 60000000000 * m := by
  have hwrap : ∀ x : Int, -9223372036854775808 ≤ x → x ≤ 9223372036854775807 →
      wrapInt64 x = x := by
    intro x hx0 hx1
    unfold wrapInt64
    rw [Int.emod_eq_of_lt (by omega) (by omega)]
    omega
  have hmin : Minute = 60000000000 := by decide
  simp only [maxMinutes] at h1
  rw [minutes, hwrap m (by omega) (by omega), hmin]
  exact hwrap _ (by omega) (by omega)

theorem filterMap_TraceError {β : Type} (f : Event → Option β) (dbg : Debug) (fmt : String)
    (v : List String) (h1 : ∀ a b c, f (Event.UserTrace a b c) = none)
    (h2 : ∀ a b, f (Event.logPrintf a b) = none) :
    (TraceError dbg fmt v).filterMap f = [] := by
  unfold TraceError
  split_ifs <;> simp [h1, h2]

theorem filterMap_TraceInfo {β : Type} (f : Event → Option β) (dbg : Debug) (fmt : String)
    (v : List String) (h1 : ∀ a b c, f (Event.UserTrace a b c) = none)
    (h2 : ∀ a b, f (Event.logPrintf a b) = none) :
    (TraceInfo dbg fmt v).filterMap f = [] := by
  unfold TraceInfo
  split_ifs <;> simp [h1, h2]

theorem countP_TraceError (f : Event → Bool) (dbg : Debug) (fmt : String)
    (v : List String) (h1 : ∀ a b c, f (Event.UserTrace a b c) = false)
    (h2 : ∀ a b, f (Event.logPrintf a b) = false) :
    (TraceError dbg fmt v).countP f = 0 := by
  unfold TraceError
  split_ifs <;> simp [h1, h2]

theorem countP_TraceInfo (f : Event → Bool) (dbg : Debug) (fmt : String)
    (v : List String) (h1 : ∀ a b c, f (Event.UserTrace a b c) = false)
    (h2 : ∀ a b, f (Event.logPrintf a b) = false) :
    (TraceInfo dbg fmt v).countP f = 0 := by
  unfold TraceInfo
  split_ifs <;> simp [h1, h2]

theorem deadlines_sessionLoop (dbg : Debug) (sw : SessionWorld) (c : Nat)
    (addr : NetAddr) (handle : Option TCPHandlerCallback) (rd wd : Int) :
    ∀ (fuel i : Nat) (d : Buf),
      readDeadlines (sessionLoop dbg sw (some c) addr handle rd wd fuel i d).1
          = (List.range' i (reads (sessionLoop dbg sw (some c) addr handle rd wd fuel i d).1)).map
              (tRead sw rd)
        ∧ writeDeadlines (sessionLoop dbg sw (some c) addr handle rd wd fuel i d).1
          = (List.range' i (reads (sessionLoop dbg sw (some c) addr handle rd wd fuel i d).1)).map
              (tWrite sw wd) := by
  intro fuel
  induction fuel with
  | zero => intro i d; simp [sessionLoop, readDeadlines, writeDeadlines, reads]
  | succ fuel ih =>
    intro i d
    have e1 := filterMap_TraceError (fun e => match e with
      | Event.SetReadDeadline _ t => some t
      | _ => none) dbg "[tcproxy] tcp read data failed, %v"
    have e2 := filterMap_TraceError (fun e => match e with
      | Event.SetWriteDeadline _ t => some t
      | _ => none) dbg "[tcproxy] tcp read data failed, %v"
    have e3 := countP_TraceError (fun e => match e with
      | Event.Read _ _ => true
      | _ => false) dbg "[tcproxy] tcp read data failed, %v"
    simp only [sessionLoop]
    split
    · simp [readDeadlines, writeDeadlines, reads, List.countP_cons, e1, e2, e3]
    · split
      · have := ih (i + 1) (d.fill ‹List Nat›)
        simp only [readDeadlines, writeDeadlines, reads] at this ⊢
        simp [List.countP_cons, this, List.range'_succ]
      · split
        · simp [readDeadlines, writeDeadlines, reads, List.countP_cons]
        · simp [readDeadlines, writeDeadlines, reads, List.countP_cons]
        · have := ih (i + 1) (d.fill ‹List Nat›)
          simp only [readDeadlines, writeDeadlines, reads] at this ⊢
          simp [List.countP_cons, this, List.range'_succ]

theorem filterMap_thread {β : Type} (f : Event → Option β)
    (h1 : ∀ a b c, f (Event.UserTrace a b c) = none) (h2 : ∀ a b, f (Event.logPrintf a b) = none)
    (h3 : ∀ c, f (Event.ConnClose c) = none) (h4 : ∀ v, f (Event.recover v) = none)
    (dbg : Debug) (sw : SessionWorld) (fuel : Nat) (conn : Option Nat)
    (addr : NetAddr) (data : Buf) (handle : Option TCPHandlerCallback) (rd wd : Int) :
    (handleTCPPacketThread dbg sw fuel conn addr data handle rd wd).1.filterMap f
      = (sessionLoop dbg sw conn addr handle rd wd fuel 0 data).1.filterMap f := by
  have i1 := fun fmt v => filterMap_TraceInfo f dbg fmt v h1 h2
  have e1 := fun fmt v => filterMap_TraceError f dbg fmt v h1 h2
  unfold handleTCPPacketThread
  generalize sessionLoop dbg sw conn addr handle rd wd fuel 0 data = body
  obtain ⟨ev, st⟩ := body
  cases st <;> cases conn <;> simp [sessionDeferred, i1, e1, h3, h4]

theorem countP_thread (f : Event → Bool)
    (h1 : ∀ a b c, f (Event.UserTrace a b c) = false)
    (h2 : ∀ a b, f (Event.logPrintf a b) = false)
    (h3 : ∀ c, f (Event.ConnClose c) = false) (h4 : ∀ v, f (Event.recover v) = false)
    (dbg : Debug) (sw : SessionWorld) (fuel : Nat) (conn : Option Nat)
    (addr : NetAddr) (data : Buf) (handle : Option TCPHandlerCallback) (rd wd : Int) :
    (handleTCPPacketThread dbg sw fuel conn addr data handle rd wd).1.countP f
      = (sessionLoop dbg sw conn addr handle rd wd fuel 0 data).1.countP f := by
  have i1 := fun fmt v => countP_TraceInfo f dbg fmt v h1 h2
  have e1 := fun fmt v => countP_TraceError f dbg fmt v h1 h2
  unfold handleTCPPacketThread
  generalize sessionLoop dbg sw conn addr handle rd wd fuel 0 data = body
  obtain ⟨ev, st⟩ := body
  cases st <;> cases conn <;> simp [sessionDeferred, List.countP_cons, i1, e1, h3, h4]

/-- A session on a nil connection: the first iteration panics in `conn.SetReadDeadline`
before any deadline or read; the deferred function closes nothing, recovers the panic and
the task returns nil. -/
theorem session_nil_conn (dbg : Debug) (sw : SessionWorld) (fuel : Nat) (addr : NetAddr)
    (data : Buf) (handle : Option TCPHandlerCallback) (rd wd : Int) :
    handleTCPPacketThread dbg sw (fuel + 1) none addr data handle rd wd
      = (TraceInfo dbg "[tcproxy] new tcp connected: -> %s" [addr]
          ++ [Event.Now, Event.Now, Event.recover (some nilDereference)]
          ++ TraceError dbg "[tcproxy] handle packet panic, %v" [nilDereference],
         Status.done none) := by
  simp [handleTCPPacketThread, sessionLoop, sessionDeferred]

/-- C9, as stated, fails: a read timeout of 153722868 minutes is a non-negative Go int, but
its nanoseconds do not fit the int64 of a `time.Duration`; the product wraps around and the
deadline applied is some 292 years before the clock reading it was computed from. -/
theorem deadline_overflow_counterexample :
    (0 : Int) ≤ 153722868
      ∧ pingSession.now 0 = 1000
      ∧ readDeadlines (handleTCPPacketThread ⟨true, false⟩ pingSession 1 (some 7)
          "10.0.0.1:5000" (make 0 8) (some okTCP) 153722868 1).1 = [-9223371993709550616]
      ∧ (-9223371993709550616 : Int) < 1000
      ∧ (-9223371993709550616 : Int) ≠ 1000 + 60 * 1000000000 * 153722868 := by
  refine ⟨by decide, rfl, by decide, by decide, by decide⟩

/-- C9, amended: for every read and write timeout between 0 and 153722867 minutes (the
largest count of minutes a `time.Duration` holds) and every iteration of a session on an
accepted connection `c`, the read deadline applied to the connection is exactly the clock
reading plus
60 * 10^9 * readTimeoutMinutes nanoseconds and the write deadline is the clock reading plus
60 * 10^9 * writeTimeoutMinutes nanoseconds, one of each for every read issued, so that no
deadline is earlier than the clock reading it is computed from; a timeout of 0 gives a
deadline equal to that clock reading, and, where the network honours deadlines, the first
read then fails with a timeout error, which ends the session before any callback
invocation. -/
theorem session_deadlines (dbg : Debug) (sw : SessionWorld) (fuel c : Nat)
    (addr : NetAddr) (data : Buf) (handle : Option TCPHandlerCallback) (rd wd : Int)
    (hr0 : 0 ≤ rd) (hr1 : rd ≤ maxMinutes) (hw0 : 0 ≤ wd) (hw1 : wd ≤ maxMinutes) :
    readDeadlines (handleTCPPacketThread dbg sw fuel (some c) addr data handle rd wd).1
        = (List.range (reads (handleTCPPacketThread dbg sw fuel (some c) addr data handle rd wd).1)).map
            (fun i => sw.now (2 * i) + 60000000000 * rd)
      ∧ writeDeadlines (handleTCPPacketThread dbg sw fuel (some c) addr data handle rd wd).1
        = (List.range (reads (handleTCPPacketThread dbg sw fuel (some c) addr data handle rd wd).1)).map
            (fun i => sw.now (2 * i + 1) + 60000000000 * wd)
      ∧ (∀ i, sw.now (2 * i) ≤ tRead sw rd i ∧ sw.now (2 * i + 1) ≤ tWrite sw wd i)
      ∧ (rd = 0 →
          (∀ i, tRead sw rd i = sw.now (2 * i))
          ∧ (DeadlineRespected sw → 0 < fuel →
              ∃ e, e.timeout = true
                ∧ (handleTCPPacketThread dbg sw fuel (some c) addr data handle rd wd).2
                  = Status.done (some e)
                ∧ sessionOps (handleTCPPacketThread dbg sw fuel (some c) addr data handle rd wd).1
                  = [SessionOp.read (some c) data.id])) := by
  have hR : ∀ i, tRead sw rd i = sw.now (2 * i) + 60000000000 * rd := by
    intro i
    simp only [tRead, timeAdd, minutes_eq rd hr0 hr1]
  have hW : ∀ i, tWrite sw wd i = sw.now (2 * i + 1) + 60000000000 * wd := by
    intro i
    simp only [tWrite, timeAdd, minutes_eq wd hw0 hw1]
  have hloop := deadlines_sessionLoop dbg sw c addr handle rd wd fuel 0 data
  refine ⟨?_, ?_, ?_, ?_⟩
  · unfold readDeadlines reads at hloop ⊢
    rw [filterMap_thread _ (by simp) (by simp) (by simp) (by simp),
      countP_thread _ (by simp) (by simp) (by simp) (by simp), hloop.1,
      List.range_eq_range']
    exact List.map_congr_left (fun i _ => hR i)
  · unfold writeDeadlines reads at hloop ⊢
    rw [filterMap_thread _ (by simp) (by simp) (by simp) (by simp),
      countP_thread _ (by simp) (by simp) (by simp) (by simp), hloop.2,
      List.range_eq_range']
    exact List.map_congr_left (fun i _ => hW i)
  · intro i
    rw [hR, hW]
    exact ⟨Int.le_add_of_nonneg_right (Int.mul_nonneg (by decide) hr0),
      Int.le_add_of_nonneg_right (Int.mul_nonneg (by decide) hw0)⟩
  · intro hzero
    subst hzero
    have hZ : ∀ i, tRead sw 0 i = sw.now (2 * i) := fun i => by rw [hR]; simp
    refine ⟨hZ, ?_⟩
    intro hworld hfuel
    obtain ⟨n, rfl⟩ : ∃ n, fuel = n + 1 := ⟨fuel - 1, by omega⟩
    obtain ⟨e, he, ht⟩ := hworld 0 (tRead sw 0 0) (by rw [hZ])
    refine ⟨e, ht, ?_, ?_⟩
    · rw [thread_status]
      simp [sessionLoop, he]
    · rw [thread_ops]
      simp [sessionLoop, he, sessionOps_append, sessionOps_cons, sessionOps_nil, sessionOp,
        sessionOps_TraceError]

theorem session_deadlines_witness :
    readDeadlines (handleTCPPacketThread ⟨true, false⟩ pingSession 5 (some 7) "10.0.0.1:5000"
        (make 0 8) (some okTCP) 1 1).1
        = (List.range (reads (handleTCPPacketThread ⟨true, false⟩ pingSession 5 (some 7)
            "10.0.0.1:5000" (make 0 8) (some okTCP) 1 1).1)).map
            (fun i => pingSession.now (2 * i) + 60000000000 * 1)
      ∧ reads (handleTCPPacketThread ⟨true, false⟩ pingSession 5 (some 7) "10.0.0.1:5000"
        (make 0 8) (some okTCP) 1 1).1 = 2
      ∧ ∃ e, e.timeout = true
        ∧ (handleTCPPacketThread ⟨true, false⟩ pingSession 5 (some 7) "10.0.0.1:5000"
            (make 0 8) (some okTCP) 0 1).2 = Status.done (some e)
        ∧ sessionOps (handleTCPPacketThread ⟨true, false⟩ pingSession 5 (some 7)
            "10.0.0.1:5000" (make 0 8) (some okTCP) 0 1).1 = [SessionOp.read (some 7) 0] :=
  ⟨(session_deadlines ⟨true, false⟩ pingSession 5 7 "10.0.0.1:5000" (make 0 8)
      (some okTCP) 1 1 (by decide) (by decide) (by decide) (by decide)).1,
   by decide,
   ((session_deadlines ⟨true, false⟩ pingSession 5 7 "10.0.0.1:5000" (make 0 8)
      (some okTCP) 0 1 (by decide) (by decide) (by decide) (by decide)).2.2.2 rfl).2
      (fun i d hd => ⟨⟨"i/o timeout", true⟩, by
        have hd1 : d ≤ 1000 + 2 * (i : Int) := by simpa [pingSession] using hd
        simp [pingSession, hd1], rfl⟩)
      (by decide)⟩

/-! ## The accept loop -/

theorem make_id (id size : Nat) : (make id size).id = id := rfl

theorem dispatch_handled (dbg : Debug) (conn : Nat) (addr : NetAddr) (data : Buf)
    (length : Int) (h : UDPHandlerCallback) :
    handledUDP (handleUDPPacketThread dbg conn addr data length (some h)).1
      = [(conn, addr, data, length)] := by
  have e1 := fun v => filterMap_TraceError (fun e => match e with
    | Event.handleUDP conn addr data length => some (conn, addr, data, length)
    | _ => none) dbg "[udproxy] handle packet panic, %v" v (by simp) (by simp)
  unfold handleUDPPacketThread dispatchBody dispatchDeferred handledUDP
  cases hres : h conn addr data length
  · simp [hres]
  · simp [hres, e1]

theorem dispatch_receives (dbg : Debug) (conn : Nat) (addr : NetAddr) (data : Buf)
    (length : Int) (handle : Option UDPHandlerCallback) :
    receives (handleUDPPacketThread dbg conn addr data length handle).1 = 0 := by
  have e1 := countP_TraceError (fun e => match e with
    | Event.ReadFromUDP _ _ => true
    | _ => false) dbg "[udproxy] handle packet panic, %v"
  unfold handleUDPPacketThread dispatchBody dispatchDeferred receives
  cases handle with
  | none => simp [List.countP_cons]
  | some h => cases hres : h conn addr data length <;> simp [hres, List.countP_cons, e1]

theorem dispatch_not_crashed (dbg : Debug) (conn : Nat) (addr : NetAddr) (data : Buf)
    (length : Int) (handle : Option UDPHandlerCallback) (v : String) :
    (handleUDPPacketThread dbg conn addr data length handle).2 ≠ Status.crashed v := by
  unfold handleUDPPacketThread dispatchBody dispatchDeferred
  cases handle with
  | none => simp
  | some h => cases hres : h conn addr data length <;> simp [hres]

theorem handleUDPPacket_dispatches (w : World) (conn : Nat) (h : UDPHandlerCallback) :
    ∀ (fuel i heap : Nat),
      (handleUDPPacket w conn (some h) fuel i heap).2 = Status.running
        ∧ receives (handleUDPPacket w conn (some h) fuel i heap).1 = fuel
        ∧ handledUDP (handleUDPPacket w conn (some h) fuel i heap).1
          = (List.range fuel).filterMap (fun j => dispatched w conn (heap + j) (i + j)) := by
  intro fuel
  induction fuel with
  | zero => intro i heap; simp [handleUDPPacket, receives, handledUDP]
  | succ fuel ih =>
    intro i heap
    have e1 := countP_TraceError (fun e => match e with
      | Event.ReadFromUDP _ _ => true
      | _ => false) w.debug "[udproxy] udp receive failed, %v"
    have e2 := filterMap_TraceError (fun e => match e with
      | Event.handleUDP conn addr data length => some (conn, addr, data, length)
      | _ => none) w.debug "[udproxy] udp receive failed, %v"
    obtain ⟨h1, h2, h3⟩ := ih (i + 1) (heap + 1)
    have hshift : (fun j => dispatched w conn (heap + (j + 1)) (i + (j + 1)))
        = (fun j => dispatched w conn (heap + 1 + j) (i + 1 + j)) := by
      funext j
      rw [show heap + (j + 1) = heap + 1 + j by omega, show i + (j + 1) = i + 1 + j by omega]
    have hrange : (List.range (fuel + 1)).filterMap
          (fun j => dispatched w conn (heap + j) (i + j))
        = (dispatched w conn heap i).toList
          ++ (List.range fuel).filterMap
            (fun j => dispatched w conn (heap + 1 + j) (i + 1 + j)) := by
      rw [List.range_succ_eq_map, List.filterMap_cons, List.filterMap_map, ← hshift]
      cases hd : dispatched w conn (heap + 0) (i + 0) <;>
        simp only [Nat.add_zero] at hd <;> simp [hd, Function.comp_def]
    rw [hrange, ← h3]
    simp only [handleUDPPacket]
    split
    · rename_i err herr
      have hnone : dispatched w conn heap i = none := by simp [dispatched, herr]
      simp only [receives, handledUDP] at h2 ⊢
      refine ⟨h1, ?_, ?_⟩
      · simp [List.countP_cons, List.countP_append, e1, h2]
      · simp [e2, hnone]
    · rename_i p addr hok
      have hsome : dispatched w conn heap i
          = some (conn, addr, (make heap 4096).fill p, (((make heap 4096).count p : Nat) : Int)) := by
        simp [dispatched, hok]
      have t1 := dispatch_receives w.debug conn addr ((make heap 4096).fill p)
        (((make heap 4096).count p : Nat) : Int) (some h)
      have t2 := dispatch_handled w.debug conn addr ((make heap 4096).fill p)
        (((make heap 4096).count p : Nat) : Int) h
      simp only [receives, handledUDP] at h2 t1 t2 ⊢
      split
      · rename_i v hv
        exact absurd hv (dispatch_not_crashed _ _ _ _ _ _ v)
      · refine ⟨h1, ?_, ?_⟩
        · simp [List.countP_cons, List.countP_append, t1, h2]
        · simp [t2, hsome]

theorem make_fill_bytes (b : Nat) (p : List Nat) :
    ((make b 4096).fill p).bytes = p.take 4096 ++ List.replicate (4096 - p.length) 0 := by
  have htake : p.take (min p.length 4096) = p.take 4096 := by
    rcases Nat.le_total p.length 4096 with hle | hle
    · rw [Nat.min_eq_left hle, List.take_of_length_le (Nat.le_refl _),
        List.take_of_length_le hle]
    · rw [Nat.min_eq_right hle]
  have hsub : 4096 - min p.length 4096 = 4096 - p.length := by omega
  simp only [Buf.fill, Buf.count, make, List.length_replicate, List.drop_replicate, htake, hsub]

theorem make_length (b size : Nat) : (make b size).bytes.length = size := by
  simp only [make, List.length_replicate]

theorem make_count (b : Nat) (p : List Nat) : (make b 4096).count p = min p.length 4096 := by
  simp only [Buf.count, make, List.length_replicate]

/-- C7, as stated, fails: for the datagram "hello" the callback gets length 5, but the
slice it gets has 4096 bytes, not 5, and is not equal to the payload. -/
theorem udp_buffer_counterexample :
    calmWorld.readFromUDP 1 = Except.ok ([104, 101, 108, 108, 111], "10.0.0.2:6000")
      ∧ (handledUDP (handleUDPPacket calmWorld 4 (some okUDP) 2 0 0).1).map
          (fun x => (x.2.1, x.2.2.1.bytes.length, x.2.2.2)) = [("10.0.0.2:6000", 4096, 5)]
      ∧ (handledUDP (handleUDPPacket calmWorld 4 (some okUDP) 2 0 0).1).map
          (fun x => x.2.2.1.bytes) ≠ [[104, 101, 108, 108, 111]] := by
  have hl := make_fill_bytes 1 [104, 101, 108, 108, 111]
  have hd : dispatched calmWorld 4 1 1 = some (4, "10.0.0.2:6000",
      (make 1 4096).fill [104, 101, 108, 108, 111],
      (((make 1 4096).count [104, 101, 108, 108, 111] : Nat) : Int)) := rfl
  have hn : dispatched calmWorld 4 0 0 = none := rfl
  refine ⟨rfl, ?_, ?_⟩
  · rw [(handleUDPPacket_dispatches calmWorld 4 okUDP 2 0 0).2.2]
    simp only [List.range_succ, List.range_zero, List.nil_append, List.cons_append,
      List.filterMap_cons, List.filterMap_nil, Nat.zero_add, hd, hn, List.map_cons, List.map_nil,
      Buf.fill_length, make_count, make_length]
    simp
  · rw [(handleUDPPacket_dispatches calmWorld 4 okUDP 2 0 0).2.2]
    simp only [List.range_succ, List.range_zero, List.nil_append, List.cons_append,
      List.filterMap_cons, List.filterMap_nil, Nat.zero_add, hd, hn, List.map_cons, List.map_nil]
    intro hbad
    have hlen := congrArg (fun l => (l.map List.length)) hbad
    simp only [List.map_cons, List.map_nil, Buf.fill_length, make_length] at hlen
    simp at hlen

/-- C7, amended: for every datagram the receive loop successfully receives, the callback is
invoked exactly once, in order of arrival, with the socket, the sender's address, the
length n that the receive returned (the size of the payload, at most 4096) and a slice
of 4096 bytes on a backing array allocated for that receive and shared with no other
dispatch, whose first n bytes are the bytes received and whose other bytes are zero (for
the payload "hello": length 5, and a slice of "hello" followed by 4091 zero bytes). -/
theorem udp_dispatch_buffer (w : World) (conn : Nat) (h : UDPHandlerCallback) (fuel : Nat) :
    handledUDP (handleUDPPacket w conn (some h) fuel 0 0).1
        = (List.range fuel).filterMap (fun j => dispatched w conn j j)
      ∧ ((handledUDP (handleUDPPacket w conn (some h) fuel 0 0).1).map
          (fun x => x.2.2.1.id)).Nodup
      ∧ (∀ (b : Nat) (p : List Nat),
          ((make b 4096).fill p).id = b
          ∧ ((make b 4096).fill p).bytes.length = 4096
          ∧ (make b 4096).count p = min p.length 4096
          ∧ ((make b 4096).fill p).bytes.take ((make b 4096).count p) = p.take 4096
          ∧ ((make b 4096).fill p).bytes.drop ((make b 4096).count p)
            = List.replicate (4096 - p.length) 0) := by
  have hloop := (handleUDPPacket_dispatches w conn h fuel 0 0).2.2
  simp only [Nat.zero_add] at hloop
  refine ⟨hloop, ?_, ?_⟩
  · rw [hloop, List.map_filterMap]
    refine List.Nodup.filterMap ?_ (List.nodup_range fuel)
    intro a a1 b hb hb1
    have key : ∀ j, b ∈ Option.map (fun x : Nat × NetAddr × Buf × Int => x.2.2.1.id)
        (dispatched w conn j j) → b = j := by
      intro j hj
      unfold dispatched at hj
      split at hj
      · simp only [Option.map_some', Option.mem_def, Option.some.injEq, Buf.fill_id,
          make_id] at hj
        exact hj.symm
      · simp at hj
    rw [← key a hb, ← key a1 hb1]
  · intro b p
    have hlen : (p.take 4096).length = min p.length 4096 := by
      rw [List.length_take]
      omega
    refine ⟨rfl, ?_, make_count b p, ?_, ?_⟩
    · rw [Buf.fill_length, make_length]
    · rw [make_fill_bytes, make_count, ← hlen, List.take_left]
    · rw [make_fill_bytes, make_count, ← hlen, List.drop_left]

/-- C8, as stated, fails: with tracing on, a dispatch task whose callback returns a non-nil
error emits no trace message at all; the error is only returned by the task, to nobody. -/
theorem udp_error_unlogged_counterexample :
    failUDP 4 "10.0.0.2:6000" (make 1 8) 5 = HandlerResult.ret (some (errorsNew "bad datagram"))
      ∧ handleUDPPacketThread ⟨true, false⟩ 4 "10.0.0.2:6000" (make 1 8) 5 (some failUDP)
        = ([Event.handleUDP 4 "10.0.0.2:6000" (make 1 8) 5, Event.recover none],
           Status.done (some (errorsNew "bad datagram")))
      ∧ logged (handleUDPPacketThread ⟨true, false⟩ 4 "10.0.0.2:6000" (make 1 8) 5
          (some failUDP)).1 = [] := by
  refine ⟨rfl, rfl, by decide⟩

/-- C8, amended: in every datagram dispatch task, a panic of the callback is recovered and
reported through TraceError, and the task returns nil; a non-nil error of the callback is
returned by the task without any trace message, and nobody gets it. In both cases nothing
reaches the receive loop: however the callback ends, the loop is still running and has
issued one receive per iteration. -/
theorem udp_fault_discarded (w : World) (conn : Nat) (addr : NetAddr) (data : Buf)
    (length : Int) (h : UDPHandlerCallback) :
    (∀ v, h conn addr data length = HandlerResult.panic v →
        handleUDPPacketThread w.debug conn addr data length (some h)
          = ([Event.handleUDP conn addr data length, Event.recover (some v)]
              ++ TraceError w.debug "[udproxy] handle packet panic, %v" [v],
             Status.done none))
      ∧ (∀ err, h conn addr data length = HandlerResult.ret err →
        handleUDPPacketThread w.debug conn addr data length (some h)
          = ([Event.handleUDP conn addr data length, Event.recover none], Status.done err)
        ∧ logged (handleUDPPacketThread w.debug conn addr data length (some h)).1 = [])
      ∧ (∀ fuel, (handleUDPPacket w conn (some h) fuel 0 0).2 = Status.running
        ∧ receives (handleUDPPacket w conn (some h) fuel 0 0).1 = fuel) := by
  refine ⟨?_, ?_, ?_⟩
  · intro v hv
    simp [handleUDPPacketThread, dispatchBody, dispatchDeferred, hv]
  · intro err herr
    constructor
    · cases err <;> simp [handleUDPPacketThread, dispatchBody, dispatchDeferred, herr]
    · cases err <;> simp [handleUDPPacketThread, dispatchBody, dispatchDeferred, herr, logged]
  · intro fuel
    exact ⟨(handleUDPPacket_dispatches w conn h fuel 0 0).1,
      (handleUDPPacket_dispatches w conn h fuel 0 0).2.1⟩

theorem udp_fault_discarded_witness :
    handleUDPPacketThread calmWorld.debug 4 "10.0.0.2:6000" (make 1 8) 5 (some panicUDP)
        = ([Event.handleUDP 4 "10.0.0.2:6000" (make 1 8) 5, Event.recover (some "nil map")]
            ++ TraceError calmWorld.debug "[udproxy] handle packet panic, %v" ["nil map"],
           Status.done none)
      ∧ (handleUDPPacketThread calmWorld.debug 4 "10.0.0.2:6000" (make 1 8) 5 (some failUDP)
        = ([Event.handleUDP 4 "10.0.0.2:6000" (make 1 8) 5, Event.recover none],
           Status.done (some (errorsNew "bad datagram")))
        ∧ logged (handleUDPPacketThread calmWorld.debug 4 "10.0.0.2:6000" (make 1 8) 5
            (some failUDP)).1 = [])
      ∧ (handleUDPPacket calmWorld 4 (some panicUDP) 6 0 0).2 = Status.running
      ∧ receives (handleUDPPacket calmWorld 4 (some panicUDP) 6 0 0).1 = 6 :=
  ⟨(udp_fault_discarded calmWorld 4 "10.0.0.2:6000" (make 1 8) 5 panicUDP).1 "nil map" rfl,
   (udp_fault_discarded calmWorld 4 "10.0.0.2:6000" (make 1 8) 5 failUDP).2.1
      (some (errorsNew "bad datagram")) rfl,
   (udp_fault_discarded calmWorld 4 "10.0.0.2:6000" (make 1 8) 5 panicUDP).2.2 6⟩

end Netproxy
